import Mathlib

/-!
# Verification of the Dimuth Tire House POS core (Electron/SQLite)

Shallow embedding of the core data store and the IPC handlers of
`src/main/ipc-handlers.ts`, together with the stock-adjustment logic of
`src/renderer/components/StockAdjustment.tsx` and the checkout payload of
`src/renderer/pages/Billing.tsx`.

Modelling conventions:
* SQLite numeric values are modelled as `ℚ` (JavaScript numbers in this code
  are SQL `REAL`/`INTEGER` values; all claim inputs are exact decimals).
* SQL `NULL` is `Option.none`; `SUM` over an empty set is `none` (SQLite
  returns NULL there), `COUNT` is a `Nat`.
* JavaScript falsy coalescing `x || d` is modelled explicitly: `0`, `""`,
  `null`/`undefined` are falsy.
* Row ids assigned by SQLite (`lastInsertRowid`) are modelled by explicit
  `next…Id` counters in the store state; surrogate rowids of `invoice_items`
  and `stock_movements` rows are not referenced anywhere and are omitted.
* `better-sqlite3`'s `db.transaction(fn)` runs `fn` inside BEGIN/COMMIT and
  issues ROLLBACK when `fn` throws, rethrowing the exception; this is
  modelled by returning the *original* state on a failed transactional run.
* Statement failures (unique-constraint violations, storage errors) are
  injected through an explicit failure oracle where a claim needs them.
-/

namespace TireHouse

/-- JS `x || null` for string-valued fields: the empty string is falsy and
becomes SQL NULL, as in `product.description || null`. -/
def jsStrOrNull (x : Option String) : Option String :=
  match x with
  | some "" => none
  | x => x

/-- JS `x || d` for numeric fields: `0` is falsy and is replaced by the
default, as in `product.low_stock_threshold || 10`. -/
def jsNumOr (x : Option ℚ) (d : ℚ) : ℚ :=
  match x with
  | none => d
  | some v => if v = 0 then d else v

/-- JS `x || null` for numeric fields: `0` is falsy and becomes SQL NULL,
as in `product.tire_width || null`. -/
def jsNumOrNull (x : Option ℚ) : Option ℚ :=
  match x with
  | none => none
  | some v => if v = 0 then none else some v

/-- JS `x || d` for string-valued fields with a string default, as in
`invoiceData.payment_method || 'cash'`. -/
def jsStrOr (x : Option String) (d : String) : String :=
  match x with
  | none => d
  | some s => if s = "" then d else s

/-- A row of the `products` table, with exactly the columns written by the
`products:create` / `products:update` handlers. -/
structure Product where
  id : Nat
  name : String
  description : Option String
  sku : Option String
  price : ℚ
  cost_price : ℚ
  stock_quantity : ℚ
  low_stock_threshold : ℚ
  category : Option String
  product_type : String
  tire_width : Option ℚ
  tire_aspect_ratio : Option ℚ
  tire_diameter : Option ℚ
  tire_load_index : Option String
  tire_speed_rating : Option String
  wheel_diameter : Option ℚ
  wheel_width : Option ℚ
  wheel_pcd : Option String
  wheel_offset : Option ℚ
  wheel_center_bore : Option ℚ
  wheel_stud_count : Option ℚ
  wheel_stud_type : Option String
  size_display : Option String
deriving DecidableEq, Repr

/-- A row of the `invoices` table, with the columns written by
`invoices:create`. -/
structure Invoice where
  id : Nat
  invoice_number : String
  customer_name : Option String
  customer_phone : Option String
  customer_email : Option String
  subtotal : ℚ
  tax_amount : ℚ
  discount_amount : ℚ
  total_amount : ℚ
  payment_method : String
  created_at : String
deriving DecidableEq, Repr

/-- A row of the `invoice_items` table (columns written by
`invoices:create`; the surrogate rowid is unused and omitted). -/
structure InvoiceItem where
  invoice_id : Nat
  product_id : Nat
  product_name : String
  quantity : ℚ
  unit_price : ℚ
  total_price : ℚ
deriving DecidableEq, Repr

/-- A row of the `stock_movements` table (columns written by the handlers;
the surrogate rowid and `created_at` default are unused and omitted). -/
structure StockMovement where
  product_id : Nat
  movement_type : String
  quantity : ℚ
  reference_id : Option ℚ
deriving DecidableEq, Repr

/-- The database state: the four core tables plus the rowid counters that
model `lastInsertRowid` for the two tables whose generated ids are used. -/
structure DB where
  products : List Product
  invoices : List Invoice
  invoice_items : List InvoiceItem
  stock_movements : List StockMovement
  nextProductId : Nat
  nextInvoiceId : Nat
deriving DecidableEq, Repr

def emptyDB : DB :=
  { products := [], invoices := [], invoice_items := [], stock_movements := []
    nextProductId := 1, nextInvoiceId := 1 }

-- ========== CATALOG STORE: size displays ==========

/-- Request payload of `tireSizes:create` (dimensions are produced by
`parseInt` in `BrandSizeManager.tsx` and are integral). -/
structure TireSizeInput where
  width : Nat
  aspect_ratio : Nat
  diameter : Nat
  load_index : Option String
  speed_rating : Option String
  size_display : Option String
deriving DecidableEq, Repr

/-- The `sizeDisplay` computation of the `tireSizes:create` handler:
`sizeData.size_display || `${width}/${aspect_ratio}R${diameter}${load_index
&& speed_rating ? ` ${load_index}${speed_rating}` : ''}``. -/
def tireSizeDisplay (d : TireSizeInput) : String :=
  match jsStrOrNull d.size_display with
  | some s => s
  | none =>
    toString d.width ++ "/" ++ toString d.aspect_ratio ++ "R" ++ toString d.diameter ++
      (match jsStrOrNull d.load_index, jsStrOrNull d.speed_rating with
       | some li, some sr => " " ++ li ++ sr
       | _, _ => "")

/-- Request payload of `wheelSizes:create`. -/
structure WheelSizeInput where
  diameter : Nat
  width : Nat
  pcd : Option String
  offset : Option ℚ
  center_bore : Option ℚ
  stud_count : Option Nat
  stud_type : Option String
  size_display : Option String
deriving DecidableEq, Repr

/-- The `sizeDisplay` computation of the `wheelSizes:create` handler:
starts from `${diameter}x${width}`, then appends ` PCD:{pcd}` when `pcd` is
truthy, ` {stud_count} Stud` when `stud_count` is truthy (0 is falsy), and
` ({stud_type})` when `stud_type` is truthy. -/
def wheelSizeDisplay (d : WheelSizeInput) : String :=
  match jsStrOrNull d.size_display with
  | some s => s
  | none =>
    let s := toString d.diameter ++ "x" ++ toString d.width
    let s := s ++ (match jsStrOrNull d.pcd with
                   | some p => " PCD:" ++ p
                   | none => "")
    let s := s ++ (match d.stud_count with
                   | some c => if c = 0 then "" else " " ++ toString c ++ " Stud"
                   | none => "")
    s ++ (match jsStrOrNull d.stud_type with
          | some t => " (" ++ t ++ ")"
          | none => "")

-- ========== INVOICE ENGINE ==========

/-- One cart line of the `invoices:create` request payload (`item` in the
handler's loop; the fields the handler reads). -/
structure InvoiceItemInput where
  product_id : Nat
  product_name : String
  quantity : ℚ
  unit_price : ℚ
  total_price : ℚ
deriving DecidableEq, Repr

/-- The `invoices:create` request payload (`invoiceData`). Absent JS fields
are `none`. -/
structure InvoiceInput where
  customer_name : Option String
  customer_phone : Option String
  customer_email : Option String
  subtotal : Option ℚ
  tax_amount : Option ℚ
  discount_amount : Option ℚ
  total_amount : Option ℚ
  payment_method : Option String
  items : Option (List InvoiceItemInput)
deriving DecidableEq, Repr

/-- A primitive SQL write executed inside the `invoices:create`
transaction body. -/
inductive DBStep where
  | insertInvoice : Invoice → DBStep
  | insertItem : InvoiceItem → DBStep
  | decStock : Nat → ℚ → DBStep
  | insertMovement : StockMovement → DBStep
deriving DecidableEq, Repr

/-- Effect of one primitive write on the store.  `decStock pid q` is
`UPDATE products SET stock_quantity = stock_quantity - q WHERE id = pid`
(no floor at zero). -/
def applyStep (db : DB) : DBStep → DB
  | .insertInvoice row =>
    { db with invoices := db.invoices ++ [row], nextInvoiceId := db.nextInvoiceId + 1 }
  | .insertItem row => { db with invoice_items := db.invoice_items ++ [row] }
  | .decStock pid q =>
    { db with products := db.products.map fun p =>
        if p.id = pid then { p with stock_quantity := p.stock_quantity - q } else p }
  | .insertMovement row => { db with stock_movements := db.stock_movements ++ [row] }

/-- The Invoice row inserted by `invoices:create`: caller-supplied totals
with JS-falsy defaults (`invoiceData.subtotal || 0`, …,
`invoiceData.payment_method || 'cash'`). -/
def invoiceRow (data : InvoiceInput) (invoiceId : Nat) (invoiceNumber localDateTime : String) :
    Invoice :=
  { id := invoiceId
    invoice_number := invoiceNumber
    customer_name := jsStrOrNull data.customer_name
    customer_phone := jsStrOrNull data.customer_phone
    customer_email := jsStrOrNull data.customer_email
    subtotal := jsNumOr data.subtotal 0
    tax_amount := jsNumOr data.tax_amount 0
    discount_amount := jsNumOr data.discount_amount 0
    total_amount := jsNumOr data.total_amount 0
    payment_method := jsStrOr data.payment_method "cash"
    created_at := localDateTime }

/-- The `invoice_items` row inserted for one cart line
(`itemStmt.run(invoiceId, item.product_id, item.product_name,
item.quantity, item.unit_price, item.total_price)`). -/
def saleItemRow (invoiceId : Nat) (item : InvoiceItemInput) : InvoiceItem :=
  { invoice_id := invoiceId, product_id := item.product_id
    product_name := item.product_name, quantity := item.quantity
    unit_price := item.unit_price, total_price := item.total_price }

/-- The `stock_movements` row inserted for one cart line, embedded exactly
as the source executes it: the prepared statement is
`INSERT INTO stock_movements (product_id, movement_type, quantity,
reference_id) VALUES (?, 'sale', ?, ?)` and the call is
`stockMovementStmt.run(item.product_id, invoiceId, item.quantity)`, so the
row's `quantity` column receives the invoice id and `reference_id` receives
the line quantity. -/
def saleMovementRow (invoiceId : Nat) (item : InvoiceItemInput) : StockMovement :=
  { product_id := item.product_id, movement_type := "sale"
    quantity := (invoiceId : ℚ), reference_id := some item.quantity }

/-- The three writes the loop body performs for one cart line. -/
def itemSteps (invoiceId : Nat) (item : InvoiceItemInput) : List DBStep :=
  [ .insertItem (saleItemRow invoiceId item),
    .decStock item.product_id item.quantity,
    .insertMovement (saleMovementRow invoiceId item) ]

/-- The loop `for (const item of invoiceData.items || [])`, flattened into
its primitive writes in execution order. -/
def cartSteps (invoiceId : Nat) : List InvoiceItemInput → List DBStep
  | [] => []
  | item :: rest => itemSteps invoiceId item ++ cartSteps invoiceId rest

/-- All primitive writes of the `invoices:create` transaction body, in
execution order: the Invoice insert, then per cart line
(`invoiceData.items || []`) the item insert, the stock decrement and the
stock-movement insert. -/
def invoiceSteps (data : InvoiceInput) (invoiceId : Nat) (invoiceNumber localDateTime : String) :
    List DBStep :=
  .insertInvoice (invoiceRow data invoiceId invoiceNumber localDateTime) ::
    cartSteps invoiceId (data.items.getD [])

/-- Run a list of primitive writes under a failure oracle: `canFail i`
says that the `i`-th statement of the body throws (unique-constraint
violation, storage error, …).  SQLite statements are atomic, so a failing
statement leaves the state as it was before that statement; execution stops
at the first failure.  Returns the state reached and whether a statement
threw. -/
def runSteps (canFail : Nat → Bool) : List DBStep → Nat → DB → DB × Bool
  | [], _, db => (db, false)
  | s :: rest, i, db =>
    if canFail i then (db, true)
    else runSteps canFail rest (i + 1) (applyStep db s)

/-- The `invoices:create` handler under a failure oracle.  `now` is
`Date.now()` (epoch milliseconds) and `localDateTime` the wall-clock string
the handler formats.  `better-sqlite3`'s `db.transaction` wraps the body in
BEGIN/COMMIT and rolls back when the body throws, rethrowing — so on
failure the resulting store is the original one and the caller sees an
error instead of the `{id, invoice_number}` result. -/
def createInvoiceTx (canFail : Nat → Bool) (now : Nat) (localDateTime : String)
    (db : DB) (data : InvoiceInput) : DB × Except String (Nat × String) :=
  let invoiceNumber := "INV-" ++ toString now
  let invoiceId := db.nextInvoiceId
  let steps := invoiceSteps data invoiceId invoiceNumber localDateTime
  match runSteps canFail steps 0 db with
  | (_, true) => (db, .error "transaction rolled back")
  | (db1, false) => (db1, .ok (invoiceId, invoiceNumber))

/-- `invoices:create` on the path where no statement throws. -/
def createInvoice (now : Nat) (localDateTime : String) (db : DB) (data : InvoiceInput) :
    DB × Except String (Nat × String) :=
  createInvoiceTx (fun _ => false) now localDateTime db data

/-- `invoices:getById`: the invoice row joined with its `invoice_items`
rows; `null` when the invoice does not exist. -/
def invoicesGetById (db : DB) (id : Nat) : Option (Invoice × List InvoiceItem) :=
  match db.invoices.find? (fun i => i.id = id) with
  | none => none
  | some inv => some (inv, db.invoice_items.filter (fun it => it.invoice_id = id))

-- ========== PRODUCT STORE ==========

/-- Request payload of `products:create` / `products:update` (the fields
the handlers read off the `product: any` argument). -/
structure ProductInput where
  name : String
  description : Option String
  sku : Option String
  price : Option ℚ
  cost_price : Option ℚ
  stock_quantity : Option ℚ
  low_stock_threshold : Option ℚ
  category : Option String
  product_type : Option String
  tire_width : Option ℚ
  tire_aspect_ratio : Option ℚ
  tire_diameter : Option ℚ
  tire_load_index : Option String
  tire_speed_rating : Option String
  wheel_diameter : Option ℚ
  wheel_width : Option ℚ
  wheel_pcd : Option String
  wheel_offset : Option ℚ
  wheel_center_bore : Option ℚ
  wheel_stud_count : Option ℚ
  wheel_stud_type : Option String
  size_display : Option String
deriving DecidableEq, Repr

/-- The column values bound by `products:create`/`products:update`, with
the handlers' JS-falsy defaults (`product.price || 0`,
`product.low_stock_threshold || 10`, `product.product_type || 'general'`,
optional fields `|| null`). -/
def productRow (id : Nat) (p : ProductInput) : Product :=
  { id := id
    name := p.name
    description := jsStrOrNull p.description
    sku := jsStrOrNull p.sku
    price := jsNumOr p.price 0
    cost_price := jsNumOr p.cost_price 0
    stock_quantity := jsNumOr p.stock_quantity 0
    low_stock_threshold := jsNumOr p.low_stock_threshold 10
    category := jsStrOrNull p.category
    product_type := jsStrOr p.product_type "general"
    tire_width := jsNumOrNull p.tire_width
    tire_aspect_ratio := jsNumOrNull p.tire_aspect_ratio
    tire_diameter := jsNumOrNull p.tire_diameter
    tire_load_index := jsStrOrNull p.tire_load_index
    tire_speed_rating := jsStrOrNull p.tire_speed_rating
    wheel_diameter := jsNumOrNull p.wheel_diameter
    wheel_width := jsNumOrNull p.wheel_width
    wheel_pcd := jsStrOrNull p.wheel_pcd
    wheel_offset := jsNumOrNull p.wheel_offset
    wheel_center_bore := jsNumOrNull p.wheel_center_bore
    wheel_stud_count := jsNumOrNull p.wheel_stud_count
    wheel_stud_type := jsStrOrNull p.wheel_stud_type
    size_display := jsStrOrNull p.size_display }

/-- The one storage constraint a `products:create` INSERT can violate,
from the schema in `runMigrations` (`src/main/database.ts`):
`CREATE TABLE IF NOT EXISTS products (... sku TEXT UNIQUE, ...)`.
All other `products` columns are unconstrained or defaulted for this
INSERT (`name TEXT NOT NULL` is always bound — possibly to `""`).  Per
SQLite UNIQUE semantics, NULLs never conflict (the handler binds
`product.sku || null`, so an absent or empty sku is NULL); the INSERT
throws `SQLITE_CONSTRAINT_UNIQUE` exactly when the bound sku is non-NULL
and already present on a stored row. -/
def skuConflict (db : DB) (p : ProductInput) : Bool :=
  match jsStrOrNull p.sku with
  | none => false
  | some s => db.products.any fun q => q.sku = some s

/-- The `products:create` handler: a single INSERT with JS-falsy defaults
and **no field validation of any kind** — the `try/catch` only rethrows a
storage error (here: a sku unique-constraint violation, the one storage
constraint this INSERT can hit).  On success returns
`{ id: lastInsertRowid, ...product }`; we return the new rowid. -/
def productsCreate (db : DB) (p : ProductInput) : DB × Except String Nat :=
  if skuConflict db p then
    (db, .error "UNIQUE constraint failed: products.sku")
  else
    ({ db with products := db.products ++ [productRow db.nextProductId p]
               nextProductId := db.nextProductId + 1 },
     .ok db.nextProductId)

/-- The `products:update` handler: `UPDATE products SET … WHERE id = ?`
binding the same defaulted column values, **without checking
`result.changes`** — it returns `{ id, ...product }` whether or not any row
matched.  There is no error path in the source. -/
def productsUpdate (db : DB) (id : Nat) (p : ProductInput) : DB × Nat :=
  ({ db with products := db.products.map fun q =>
      if q.id = id then productRow id p else q },
   id)

/-- The `products:delete` handler, step by step and **not inside a
transaction**: (1) count `invoice_items` with this `product_id`; (2) if
positive, delete this product's `stock_movements` and `invoice_items` rows;
(3) unconditionally delete this product's `stock_movements` rows again;
(4) `DELETE FROM products WHERE id = ?` and throw `'Product not found'`
when `result.changes === 0`.  The earlier deletes are NOT rolled back on
that throw, so the error case returns the mutated store. -/
def productsDelete (db : DB) (id : Nat) : DB × Except String Unit :=
  let itemCount := (db.invoice_items.filter fun it => it.product_id = id).length
  let db1 :=
    if 0 < itemCount then
      { db with
        stock_movements := db.stock_movements.filter fun m => ¬ m.product_id = id
        invoice_items := db.invoice_items.filter fun it => ¬ it.product_id = id }
    else db
  let db2 :=
    { db1 with stock_movements := db1.stock_movements.filter fun m => ¬ m.product_id = id }
  let remaining := db2.products.filter fun q => ¬ q.id = id
  if remaining.length = db2.products.length then
    (db2, .error "Product not found")
  else
    ({ db2 with products := remaining }, .ok ())

-- ========== STOCK ADJUSTMENT (StockAdjustment.tsx) ==========

/-- The three adjustment modes of `StockAdjustment.tsx`. -/
inductive AdjustmentType where
  | add
  | subtract
  | set
deriving DecidableEq, Repr

/-- `handleSubmit`'s `newStock` computation: `add` → `current + qty`;
`subtract` → `Math.max(0, current - qty)`; `set` → `qty`. -/
def adjustNewStock (current : ℚ) (t : AdjustmentType) (qty : ℚ) : ℚ :=
  match t with
  | .add => current + qty
  | .subtract => max 0 (current - qty)
  | .set => qty

/-- The `{...product}` spread `handleSubmit` sends back through
`products.update`: the stored row re-read as an update payload. -/
def productToInput (p : Product) : ProductInput :=
  { name := p.name, description := p.description, sku := p.sku
    price := some p.price, cost_price := some p.cost_price
    stock_quantity := some p.stock_quantity
    low_stock_threshold := some p.low_stock_threshold
    category := p.category, product_type := some p.product_type
    tire_width := p.tire_width, tire_aspect_ratio := p.tire_aspect_ratio
    tire_diameter := p.tire_diameter, tire_load_index := p.tire_load_index
    tire_speed_rating := p.tire_speed_rating
    wheel_diameter := p.wheel_diameter, wheel_width := p.wheel_width
    wheel_pcd := p.wheel_pcd, wheel_offset := p.wheel_offset
    wheel_center_bore := p.wheel_center_bore
    wheel_stud_count := p.wheel_stud_count, wheel_stud_type := p.wheel_stud_type
    size_display := p.size_display }

/-- `StockAdjustment.tsx` `handleSubmit` on product `p`: rejects a
non-positive quantity, otherwise computes `newStock` and calls
`products.update(product.id, { ...product, stock_quantity: newStock })`.
The component's own comment records that no stock-movement IPC handler
exists ("for now we'll just update stock"), so the ONLY write is the
product update. -/
def stockAdjustSubmit (db : DB) (p : Product) (t : AdjustmentType) (qty : ℚ) : DB :=
  if qty ≤ 0 then db
  else
    (productsUpdate db p.id
      { productToInput p with stock_quantity := some (adjustNewStock p.stock_quantity t qty) }).1

-- ========== BILLING CHECKOUT PAYLOAD (Billing.tsx) ==========

/-- `calculateTotals` of `Billing.tsx`:
`subtotal = cart.reduce((sum, item) => sum + item.total_price, 0)`,
`tax = subtotal * (taxRate / 100)`, `total = subtotal + tax`. -/
def calculateTotals (cart : List InvoiceItemInput) (taxRate : ℚ) : ℚ × ℚ × ℚ :=
  let subtotal := (cart.map (fun item => item.total_price)).sum
  let tax := subtotal * (taxRate / 100)
  (subtotal, tax, subtotal + tax)

/-- The `invoiceData` object `handleCheckout` passes to `invoices.create`:
computed totals, `discount_amount: 0`, and the cart as `items`. -/
def billingPayload (cart : List InvoiceItemInput) (taxRate : ℚ)
    (customerName customerPhone : Option String) (paymentMethod : String) : InvoiceInput :=
  let t := calculateTotals cart taxRate
  { customer_name := jsStrOrNull customerName
    customer_phone := jsStrOrNull customerPhone
    customer_email := none
    subtotal := some t.1
    tax_amount := some t.2.1
    discount_amount := some 0
    total_amount := some t.2.2
    payment_method := some paymentMethod
    items := some cart }

-- ========== REPORTING AGGREGATOR ==========

/-- SQLite `SUM(column)`: NULL over an empty row set, the sum otherwise. -/
def sqlSum (l : List ℚ) : Option ℚ :=
  if l.isEmpty then none else some l.sum

/-- The first SELECT of `reports:dailySales`: COUNT and the four SUMs over
the invoices whose `SUBSTR(created_at, 1, 10)` equals the requested date. -/
structure DailySummary where
  total_invoices : Nat
  total_revenue : Option ℚ
  total_subtotal : Option ℚ
  total_tax : Option ℚ
  total_discount : Option ℚ
deriving DecidableEq, Repr

/-- One row of the `topProducts` SELECT. -/
structure TopProduct where
  product_id : Nat
  product_name : String
  total_quantity : ℚ
  total_revenue : ℚ
deriving DecidableEq, Repr

/-- Descending insertion sort on `total_revenue`, embedding
`ORDER BY total_revenue DESC` (tie order in SQLite is unspecified). -/
def insertByRevenue (r : TopProduct) : List TopProduct → List TopProduct
  | [] => [r]
  | x :: xs =>
    if x.total_revenue ≤ r.total_revenue then r :: x :: xs
    else x :: insertByRevenue r xs

def sortByRevenueDesc : List TopProduct → List TopProduct
  | [] => []
  | x :: xs => insertByRevenue x (sortByRevenueDesc xs)

/-- The `topProducts` query of `reports:dailySales`: `invoice_items` INNER
JOINed with their invoice, restricted to the requested local date, grouped
by `(product_id, product_name)` with `SUM(quantity)` and
`SUM(total_price)`, ordered by revenue descending, LIMIT 10. -/
def dailyTopProducts (db : DB) (date : String) : List TopProduct :=
  let rows := db.invoice_items.filter fun ii =>
    match db.invoices.find? (fun i => i.id = ii.invoice_id) with
    | some i => i.created_at.take 10 = date
    | none => false
  let keys := (rows.map fun r => (r.product_id, r.product_name)).dedup
  let grouped := keys.map fun k =>
    let g := rows.filter fun r => r.product_id = k.1 ∧ r.product_name = k.2
    { product_id := k.1, product_name := k.2
      total_quantity := (g.map (fun r => r.quantity)).sum
      total_revenue := (g.map (fun r => r.total_price)).sum : TopProduct }
  (sortByRevenueDesc grouped).take 10

/-- Return shape of `reports:dailySales`. -/
structure DailyReport where
  summary : DailySummary
  topProducts : List TopProduct
deriving DecidableEq, Repr

/-- The `reports:dailySales` handler: two read-only SELECTs, no error path
(absent rows yield COUNT 0 / SUM NULL, never a thrown error). -/
def dailySales (db : DB) (date : String) : DailyReport :=
  let rows := db.invoices.filter fun i => i.created_at.take 10 = date
  { summary :=
      { total_invoices := rows.length
        total_revenue := sqlSum (rows.map fun i => i.total_amount)
        total_subtotal := sqlSum (rows.map fun i => i.subtotal)
        total_tax := sqlSum (rows.map fun i => i.tax_amount)
        total_discount := sqlSum (rows.map fun i => i.discount_amount) }
    topProducts := dailyTopProducts db date }

-- ========== HELPER LEMMAS ==========

/-- Sequential effect of the loop's stock decrements
(`UPDATE products SET stock_quantity = stock_quantity - ? WHERE id = ?`
once per cart line, in order). -/
def decStockList (ps : List Product) : List InvoiceItemInput → List Product
  | [] => ps
  | item :: rest =>
    decStockList
      (ps.map fun p =>
        if p.id = item.product_id then
          { p with stock_quantity := p.stock_quantity - item.quantity }
        else p)
      rest

theorem cartSteps_foldl (invoiceId : Nat) (items : List InvoiceItemInput) (db : DB) :
    (cartSteps invoiceId items).foldl applyStep db =
      { db with
        products := decStockList db.products items
        invoice_items := db.invoice_items ++ items.map (saleItemRow invoiceId)
        stock_movements := db.stock_movements ++ items.map (saleMovementRow invoiceId) } := by
  induction items generalizing db with
  | nil => simp [cartSteps, decStockList]
  | cons item rest ih =>
    simp only [cartSteps, itemSteps, List.cons_append, List.nil_append, List.foldl_cons,
      applyStep, ih, decStockList, List.map_cons, List.append_assoc, List.singleton_append]

theorem runSteps_spec (canFail : Nat → Bool) (l : List DBStep) (i : Nat) (db : DB) :
    (runSteps canFail l i db).2 = true ∨
    runSteps canFail l i db = (l.foldl applyStep db, false) := by
  induction l generalizing i db with
  | nil => right; rfl
  | cons s rest ih =>
    by_cases h : canFail i
    · left; simp [runSteps, h]
    · rcases ih (i + 1) (applyStep db s) with h2 | h2
      · left; simpa [runSteps, h] using h2
      · right; simpa [runSteps, h] using h2

theorem runSteps_noFail (l : List DBStep) (i : Nat) (db : DB) :
    runSteps (fun _ => false) l i db = (l.foldl applyStep db, false) := by
  induction l generalizing i db with
  | nil => rfl
  | cons s rest ih => simp [runSteps, ih]

/-- Evaluation of `invoices:create` on the path where no statement throws:
the Invoice row is inserted, and per cart line an item row, a stock
decrement and a movement row are applied. -/
theorem createInvoice_eq (now : Nat) (ldt : String) (db : DB) (data : InvoiceInput) :
    createInvoice now ldt db data =
      ({ db with
          products := decStockList db.products (data.items.getD [])
          invoices := db.invoices ++
            [invoiceRow data db.nextInvoiceId ("INV-" ++ toString now) ldt]
          invoice_items := db.invoice_items ++
            (data.items.getD []).map (saleItemRow db.nextInvoiceId)
          stock_movements := db.stock_movements ++
            (data.items.getD []).map (saleMovementRow db.nextInvoiceId)
          nextInvoiceId := db.nextInvoiceId + 1 },
        Except.ok (db.nextInvoiceId, "INV-" ++ toString now)) := by
  simp only [createInvoice, createInvoiceTx, runSteps_noFail, invoiceSteps, List.foldl_cons,
    applyStep, cartSteps_foldl]

theorem jsNumOr_some_zero (v : ℚ) : jsNumOr (some v) 0 = v := by
  unfold jsNumOr
  split <;> simp_all

-- ========== CLAIM THEOREMS ==========

/-- C1: `invoices:create` is atomic.  For every request payload and every
failure oracle (any statement of the transaction body may throw — a
unique-constraint violation on `invoice_number`, a storage error on an
`invoice_items` insert, a stock decrement or a `stock_movements` insert),
the handler either returns an error with the store exactly as it was
(rollback, no partial invoice and no partial stock decrement), or succeeds
with every write applied: the Invoice row, every InvoiceItem row, every
stock decrement and every StockMovement row. -/
theorem claim_C1_invoice_atomicity (canFail : Nat → Bool) (now : Nat) (ldt : String)
    (db : DB) (data : InvoiceInput) :
    (∃ e, createInvoiceTx canFail now ldt db data = (db, Except.error e)) ∨
    createInvoiceTx canFail now ldt db data =
      ({ db with
          products := decStockList db.products (data.items.getD [])
          invoices := db.invoices ++
            [invoiceRow data db.nextInvoiceId ("INV-" ++ toString now) ldt]
          invoice_items := db.invoice_items ++
            (data.items.getD []).map (saleItemRow db.nextInvoiceId)
          stock_movements := db.stock_movements ++
            (data.items.getD []).map (saleMovementRow db.nextInvoiceId)
          nextInvoiceId := db.nextInvoiceId + 1 },
        Except.ok (db.nextInvoiceId, "INV-" ++ toString now)) := by
  have h := runSteps_spec canFail
    (invoiceSteps data db.nextInvoiceId ("INV-" ++ toString now) ldt) 0 db
  rcases hr : runSteps canFail
      (invoiceSteps data db.nextInvoiceId ("INV-" ++ toString now) ldt) 0 db with ⟨db1, b⟩
  rw [hr] at h
  cases b with
  | true =>
    left
    exact ⟨"transaction rolled back", by simp [createInvoiceTx, hr]⟩
  | false =>
    right
    have hdb1 : db1 =
        (invoiceSteps data db.nextInvoiceId ("INV-" ++ toString now) ldt).foldl applyStep db := by
      rcases h with h | h
      · simp at h
      · exact congrArg Prod.fst h
    simp only [createInvoiceTx, hr]
    simp only [hdb1, invoiceSteps, List.foldl_cons, applyStep, cartSteps_foldl]

-- Concrete fixtures used by witnesses and counterexamples.

/-- A stored product: 10 units in stock at price 1000. -/
def tireProduct : Product :=
  { id := 1, name := "Tire A", description := none, sku := none
    price := 1000, cost_price := 0, stock_quantity := 10, low_stock_threshold := 10
    category := none, product_type := "tire"
    tire_width := none, tire_aspect_ratio := none, tire_diameter := none
    tire_load_index := none, tire_speed_rating := none
    wheel_diameter := none, wheel_width := none, wheel_pcd := none
    wheel_offset := none, wheel_center_bore := none, wheel_stud_count := none
    wheel_stud_type := none, size_display := none }

/-- Store holding just `tireProduct`. -/
def saleDB : DB :=
  { emptyDB with products := [tireProduct], nextProductId := 2 }

/-- Cart line: 3 units of product 1 at 1000. -/
def saleCartLine : InvoiceItemInput :=
  { product_id := 1, product_name := "Tire A", quantity := 3
    unit_price := 1000, total_price := 3000 }

/-- Checkout payload for `saleCartLine` with no tax and no discount. -/
def saleInput : InvoiceInput :=
  { customer_name := none, customer_phone := none, customer_email := none
    subtotal := some 3000, tax_amount := some 0, discount_amount := some 0
    total_amount := some 3000, payment_method := some "cash"
    items := some [saleCartLine] }

/-- An `invoices:create` payload with no `items` field at all. -/
def emptyCartInput : InvoiceInput :=
  { customer_name := none, customer_phone := none, customer_email := none
    subtotal := none, tax_amount := none, discount_amount := none
    total_amount := none, payment_method := none, items := none }

/-- C10: `invoices:create` with a missing or empty `items` array still
succeeds: it inserts exactly one Invoice row carrying the caller-supplied
totals — each absent monetary field defaulting to 0 and `payment_method`
defaulting to `"cash"` — creates no InvoiceItem rows, changes no product
stock, appends no StockMovement rows, and returns the new id together with
`invoice_number = "INV-" ++ epochMillis`. -/
theorem claim_C10_empty_cart (now : Nat) (ldt : String) (db : DB) (data : InvoiceInput)
    (h : data.items = none ∨ data.items = some []) :
    createInvoice now ldt db data =
      ({ db with
          invoices := db.invoices ++
            [invoiceRow data db.nextInvoiceId ("INV-" ++ toString now) ldt]
          nextInvoiceId := db.nextInvoiceId + 1 },
        Except.ok (db.nextInvoiceId, "INV-" ++ toString now)) ∧
    (data.subtotal = none →
      (invoiceRow data db.nextInvoiceId ("INV-" ++ toString now) ldt).subtotal = 0) ∧
    (data.tax_amount = none →
      (invoiceRow data db.nextInvoiceId ("INV-" ++ toString now) ldt).tax_amount = 0) ∧
    (data.discount_amount = none →
      (invoiceRow data db.nextInvoiceId ("INV-" ++ toString now) ldt).discount_amount = 0) ∧
    (data.total_amount = none →
      (invoiceRow data db.nextInvoiceId ("INV-" ++ toString now) ldt).total_amount = 0) ∧
    (data.payment_method = none →
      (invoiceRow data db.nextInvoiceId ("INV-" ++ toString now) ldt).payment_method = "cash") := by
  refine ⟨?_, fun hs => by simp [invoiceRow, hs, jsNumOr],
    fun hs => by simp [invoiceRow, hs, jsNumOr],
    fun hs => by simp [invoiceRow, hs, jsNumOr],
    fun hs => by simp [invoiceRow, hs, jsNumOr],
    fun hs => by simp [invoiceRow, hs, jsStrOr]⟩
  have hempty : data.items.getD [] = [] := by rcases h with h | h <;> simp [h]
  simp [createInvoice_eq, hempty, decStockList]

theorem claim_C10_empty_cart_witness :
    (emptyCartInput.items = none ∨ emptyCartInput.items = some []) ∧
    (createInvoice 1760000000000 "2026-10-11 09:00:00" emptyDB emptyCartInput =
        ({ emptyDB with
            invoices := emptyDB.invoices ++
              [invoiceRow emptyCartInput emptyDB.nextInvoiceId
                ("INV-" ++ toString 1760000000000) "2026-10-11 09:00:00"]
            nextInvoiceId := emptyDB.nextInvoiceId + 1 },
          Except.ok (emptyDB.nextInvoiceId, "INV-" ++ toString 1760000000000)) ∧
      (emptyCartInput.subtotal = none →
        (invoiceRow emptyCartInput emptyDB.nextInvoiceId
          ("INV-" ++ toString 1760000000000) "2026-10-11 09:00:00").subtotal = 0) ∧
      (emptyCartInput.tax_amount = none →
        (invoiceRow emptyCartInput emptyDB.nextInvoiceId
          ("INV-" ++ toString 1760000000000) "2026-10-11 09:00:00").tax_amount = 0) ∧
      (emptyCartInput.discount_amount = none →
        (invoiceRow emptyCartInput emptyDB.nextInvoiceId
          ("INV-" ++ toString 1760000000000) "2026-10-11 09:00:00").discount_amount = 0) ∧
      (emptyCartInput.total_amount = none →
        (invoiceRow emptyCartInput emptyDB.nextInvoiceId
          ("INV-" ++ toString 1760000000000) "2026-10-11 09:00:00").total_amount = 0) ∧
      (emptyCartInput.payment_method = none →
        (invoiceRow emptyCartInput emptyDB.nextInvoiceId
          ("INV-" ++ toString 1760000000000) "2026-10-11 09:00:00").payment_method = "cash")) :=
  ⟨Or.inl rfl,
    claim_C10_empty_cart 1760000000000 "2026-10-11 09:00:00" emptyDB emptyCartInput (Or.inl rfl)⟩

/-- C2: selling 3 units of product 1 (stock 10) does decrement the stock
to 7, but the single StockMovement row the transaction appends carries
`quantity = 1` (the new invoice's id) and `reference_id = 3` (the line
quantity): the prepared statement binds `(product_id, quantity,
reference_id)` positionally while the call passes
`(item.product_id, invoiceId, item.quantity)`.  The claim's required row —
`quantity = 3`, `reference_id = invoice id` — is therefore NOT what the
code writes: quantity and reference_id are swapped. -/
theorem claim_C2_sale_movement_swapped :
    ((createInvoice 1760000000000 "2026-10-11 09:00:00" saleDB saleInput).1.products.map
      fun p => p.stock_quantity) = [7] ∧
    (createInvoice 1760000000000 "2026-10-11 09:00:00" saleDB saleInput).1.stock_movements =
      [{ product_id := 1, movement_type := "sale", quantity := 1, reference_id := some 3 }] ∧
    (1 : ℚ) ≠ 3 := by
  refine ⟨?_, ?_, by norm_num⟩
  · simp [createInvoice_eq, decStockList, saleDB, saleInput, saleCartLine, tireProduct,
      emptyDB, saleMovementRow, saleItemRow]
    norm_num
  · simp [createInvoice_eq, decStockList, saleDB, saleInput, saleCartLine, tireProduct,
      emptyDB, saleMovementRow, saleItemRow]

/-- C3 counterexample: `invoices:create` stores whatever `subtotal` and
`total_amount` the caller supplies.  With a payload whose items sum to 100
but which claims `subtotal = 999` and `total_amount = 5`, the stored
Invoice row has `subtotal = 999 ≠ 100 = Σ items.total_price` and
`total_amount = 5 ≠ 999 + 0 − 0 = subtotal + tax − discount`. -/
theorem claim_C3_counterexample :
    ((createInvoice 1760000000000 "2026-10-11 09:00:00" saleDB
        { customer_name := none, customer_phone := none, customer_email := none
          subtotal := some 999, tax_amount := some 0, discount_amount := some 0
          total_amount := some 5, payment_method := some "cash"
          items := some [{ product_id := 1, product_name := "Tire A", quantity := 1
                           unit_price := 100, total_price := 100 }] }).1.invoices.map
      fun i => (i.subtotal, i.total_amount)) = [((999 : ℚ), (5 : ℚ))] ∧
    ([({ product_id := 1, product_name := "Tire A", quantity := 1
         unit_price := 100, total_price := 100 } : InvoiceItemInput)].map
      fun it => it.total_price).sum = 100 ∧
    (999 : ℚ) ≠ 100 ∧ (5 : ℚ) ≠ 999 + 0 - 0 := by
  refine ⟨?_, by norm_num, by norm_num, by norm_num⟩
  simp [createInvoice_eq, saleDB, emptyDB, invoiceRow, jsNumOr, jsStrOrNull, jsStrOr]

/-- C3 amended: the handler stores the caller-supplied totals verbatim
(with falsy-defaults), so the invariant holds exactly for payloads built by
the Billing checkout: for every cart and tax rate, the Invoice row created
from `billingPayload` has `subtotal = Σ cart.total_price` and
`total_amount = subtotal + tax_amount − discount_amount`
(`discount_amount` is always 0 there). -/
theorem claim_C3_billing_invariant (now : Nat) (ldt : String) (db : DB)
    (cart : List InvoiceItemInput) (taxRate : ℚ)
    (name phone : Option String) (pm : String) :
    (createInvoice now ldt db (billingPayload cart taxRate name phone pm)).1.invoices =
      db.invoices ++
        [invoiceRow (billingPayload cart taxRate name phone pm) db.nextInvoiceId
          ("INV-" ++ toString now) ldt] ∧
    (invoiceRow (billingPayload cart taxRate name phone pm) db.nextInvoiceId
        ("INV-" ++ toString now) ldt).subtotal =
      (cart.map fun it => it.total_price).sum ∧
    (invoiceRow (billingPayload cart taxRate name phone pm) db.nextInvoiceId
        ("INV-" ++ toString now) ldt).total_amount =
      (invoiceRow (billingPayload cart taxRate name phone pm) db.nextInvoiceId
          ("INV-" ++ toString now) ldt).subtotal +
        (invoiceRow (billingPayload cart taxRate name phone pm) db.nextInvoiceId
            ("INV-" ++ toString now) ldt).tax_amount -
        (invoiceRow (billingPayload cart taxRate name phone pm) db.nextInvoiceId
            ("INV-" ++ toString now) ldt).discount_amount := by
  refine ⟨by simp [createInvoice_eq], ?_, ?_⟩ <;>
    simp [invoiceRow, billingPayload, calculateTotals, jsNumOr_some_zero]

/-- C6: the derived size displays.  Tire `{width:205, aspect_ratio:55,
diameter:16}` yields `"205/55R16"`; adding `{load_index:"91",
speed_rating:"V"}` yields `"205/55R16 91V"`; wheel `{diameter:16, width:7,
stud_count:5, stud_type:"Long Stud"}` yields `"16x7 5 Stud (Long Stud)"`,
which contains both `"16x7"` and `"5 Stud (Long Stud)"` as substrings. -/
theorem claim_C6_size_display :
    tireSizeDisplay ⟨205, 55, 16, none, none, none⟩ = "205/55R16" ∧
    tireSizeDisplay ⟨205, 55, 16, some "91", some "V", none⟩ = "205/55R16 91V" ∧
    wheelSizeDisplay ⟨16, 7, none, none, none, some 5, some "Long Stud", none⟩ =
      "16x7 5 Stud (Long Stud)" ∧
    (∃ pre post, wheelSizeDisplay ⟨16, 7, none, none, none, some 5, some "Long Stud", none⟩ =
      pre ++ "16x7" ++ post) ∧
    (∃ pre post, wheelSizeDisplay ⟨16, 7, none, none, none, some 5, some "Long Stud", none⟩ =
      pre ++ "5 Stud (Long Stud)" ++ post) :=
  ⟨rfl, rfl, rfl, ⟨"", " 5 Stud (Long Stud)", rfl⟩, ⟨"16x7 ", "", rfl⟩⟩

theorem length_filter_lt_of_mem {α} {l : List α} {p : α → Bool} {x : α}
    (hx : x ∈ l) (hpx : p x = false) : (l.filter p).length < l.length := by
  induction l with
  | nil => cases hx
  | cons a as ih =>
    rcases List.mem_cons.mp hx with rfl | hmem
    · rw [List.filter_cons, hpx]
      simpa using Nat.lt_succ_of_le (List.length_filter_le p as)
    · cases hpa : p a
      · rw [List.filter_cons, hpa]
        simpa using Nat.lt_succ_of_lt (ih hmem)
      · rw [List.filter_cons, hpa]
        simpa using Nat.succ_lt_succ (ih hmem)

/-- `products:delete` on an id that exists: whatever the invoice-items
check found, the surviving state has this product's `stock_movements`,
`invoice_items` and `products` rows removed and everything else intact. -/
theorem productsDelete_spec (db : DB) (pid : Nat) (x : Product)
    (hx : x ∈ db.products) (hxid : x.id = pid) :
    productsDelete db pid =
      ({ db with
          products := db.products.filter fun q => ¬ q.id = pid
          invoice_items := db.invoice_items.filter fun it => ¬ it.product_id = pid
          stock_movements := db.stock_movements.filter fun m => ¬ m.product_id = pid },
        Except.ok ()) := by
  have hlt : (db.products.filter fun q => ¬ q.id = pid).length < db.products.length :=
    length_filter_lt_of_mem hx (by simp [hxid])
  have hmm : ((db.stock_movements.filter fun m => ¬ m.product_id = pid).filter
      fun m => ¬ m.product_id = pid) =
      db.stock_movements.filter fun m => ¬ m.product_id = pid :=
    List.filter_eq_self.mpr fun a ha => (List.mem_filter.mp ha).2
  unfold productsDelete
  by_cases hc : 0 < (db.invoice_items.filter fun it => it.product_id = pid).length
  · simp only [hc, if_true, hmm, if_neg (Nat.ne_of_lt hlt)]
  · have hnone : ∀ it ∈ db.invoice_items, ¬ it.product_id = pid := by
      intro it hit
      by_contra hmem
      exact hc (List.length_pos.mpr (by
        intro hnil
        exact (List.filter_eq_nil_iff.mp hnil) it hit (by simpa using hmem)))
    have hitems : (db.invoice_items.filter fun it => ¬ it.product_id = pid) =
        db.invoice_items :=
      List.filter_eq_self.mpr fun a ha => by simpa using hnone a ha
    simp only [hc, if_false, hitems, if_neg (Nat.ne_of_lt hlt)]

/-- A historical invoice with one line of product 1, plus its audit row. -/
def histInvoice : Invoice :=
  { id := 1, invoice_number := "INV-1", customer_name := none, customer_phone := none
    customer_email := none, subtotal := 100, tax_amount := 0, discount_amount := 0
    total_amount := 100, payment_method := "cash", created_at := "2026-01-01 10:00:00" }

def histItem : InvoiceItem :=
  { invoice_id := 1, product_id := 1, product_name := "Tire A", quantity := 1
    unit_price := 100, total_price := 100 }

def histDB : DB :=
  { products := [tireProduct], invoices := [histInvoice], invoice_items := [histItem]
    stock_movements := [{ product_id := 1, movement_type := "sale", quantity := 1
                          reference_id := some 1 }]
    nextProductId := 2, nextInvoiceId := 2 }

/-- C4 counterexample: deleting product 1 — which has an InvoiceItem on
invoice 1 — succeeds, but the subsequent `invoices:getById 1` returns the
invoice with an EMPTY item list: the snapshot line (`product_name`,
`unit_price`) is gone, because `products:delete` deletes the
`invoice_items` rows of the product.  The claim's assertion that the
snapshot line is still returned unchanged is false. -/
theorem claim_C4_counterexample :
    (productsDelete histDB 1).2 = Except.ok () ∧
    invoicesGetById (productsDelete histDB 1).1 1 = some (histInvoice, []) :=
  ⟨rfl, rfl⟩

/-- C4 amended: deleting a Product that has existing InvoiceItems
succeeds and removes that product's StockMovement and InvoiceItem rows;
a subsequent `getById` on a historical Invoice returns the Invoice row
unchanged, but with that product's snapshot lines REMOVED (the remaining
lines are returned unchanged). -/
theorem claim_C4_cascade_delete (db : DB) (pid invId : Nat) (inv : Invoice)
    (its : List InvoiceItem) (x : Product) (hx : x ∈ db.products) (hxid : x.id = pid)
    (hg : invoicesGetById db invId = some (inv, its)) :
    ∃ db', productsDelete db pid = (db', Except.ok ()) ∧
      db'.stock_movements = db.stock_movements.filter (fun m => ¬ m.product_id = pid) ∧
      db'.invoice_items = db.invoice_items.filter (fun it => ¬ it.product_id = pid) ∧
      db'.invoices = db.invoices ∧
      invoicesGetById db' invId =
        some (inv, its.filter fun it => ¬ it.product_id = pid) := by
  refine ⟨_, productsDelete_spec db pid x hx hxid, rfl, rfl, rfl, ?_⟩
  unfold invoicesGetById at hg ⊢
  rcases hf : db.invoices.find? (fun i => i.id = invId) with _ | i
  · rw [hf] at hg; cases hg
  · rw [hf] at hg
    obtain ⟨rfl, rfl⟩ : i = inv ∧
        db.invoice_items.filter (fun it => it.invoice_id = invId) = its := by
      cases hg; exact ⟨rfl, rfl⟩
    simp only [hf, List.filter_comm]

theorem claim_C4_cascade_delete_witness :
    tireProduct ∈ histDB.products ∧ tireProduct.id = 1 ∧
    invoicesGetById histDB 1 = some (histInvoice, [histItem]) ∧
    ∃ db', productsDelete histDB 1 = (db', Except.ok ()) ∧
      db'.stock_movements = histDB.stock_movements.filter (fun m => ¬ m.product_id = 1) ∧
      db'.invoice_items = histDB.invoice_items.filter (fun it => ¬ it.product_id = 1) ∧
      db'.invoices = histDB.invoices ∧
      invoicesGetById db' 1 =
        some (histInvoice, [histItem].filter fun it => ¬ it.product_id = 1) :=
  ⟨by simp [histDB], rfl, rfl,
    claim_C4_cascade_delete histDB 1 1 histInvoice [histItem] tireProduct
      (by simp [histDB]) rfl rfl⟩

theorem map_eq_self_of {α} {l : List α} {f : α → α} (h : ∀ a ∈ l, f a = a) : l.map f = l := by
  induction l with
  | nil => rfl
  | cons a as ih =>
    rw [List.map_cons, h a (List.mem_cons_self a as), ih fun x hx => h x (List.mem_cons_of_mem a hx)]

/-- A `products:create` payload with an empty name, a negative price and a
negative stock — everything the claim says must be rejected. -/
def invalidProductInput : ProductInput :=
  { name := "", description := none, sku := none, price := some (-5), cost_price := none
    stock_quantity := some (-3), low_stock_threshold := none, category := none
    product_type := none, tire_width := none, tire_aspect_ratio := none
    tire_diameter := none, tire_load_index := none, tire_speed_rating := none
    wheel_diameter := none, wheel_width := none, wheel_pcd := none, wheel_offset := none
    wheel_center_bore := none, wheel_stud_count := none, wheel_stud_type := none
    size_display := none }

/-- An ordinary valid `products:create` payload. -/
def validProductInput : ProductInput :=
  { name := "Tire B", description := none, sku := none, price := some 500, cost_price := none
    stock_quantity := some 5, low_stock_threshold := none, category := none
    product_type := some "tire", tire_width := none, tire_aspect_ratio := none
    tire_diameter := none, tire_load_index := none, tire_speed_rating := none
    wheel_diameter := none, wheel_width := none, wheel_pcd := none, wheel_offset := none
    wheel_center_bore := none, wheel_stud_count := none, wheel_stud_type := none
    size_display := none }

/-- C5 counterexample: the handler performs NO validation.  A payload with
empty `name`, `price = −5` and `stock_quantity = −3` is inserted as a row
(with those very values) and the new id is returned — no `ValidationError`
is raised and a row IS inserted, contradicting the claim. -/
theorem claim_C5_counterexample :
    productsCreate emptyDB invalidProductInput =
      ({ emptyDB with products := [productRow 1 invalidProductInput], nextProductId := 2 },
        Except.ok 1) ∧
    (productRow 1 invalidProductInput).name = "" ∧
    (productRow 1 invalidProductInput).price = -5 ∧
    (productRow 1 invalidProductInput).stock_quantity = -3 := by
  refine ⟨rfl, rfl, ?_, ?_⟩ <;>
    norm_num [productRow, invalidProductInput, jsNumOr]

/-- C5 amended: `products:create` validates nothing.  For EVERY payload
whose (falsy-coalesced) sku does not collide with a stored one — in
particular payloads with an empty name, a non-positive price, or a missing
or negative stock quantity — it inserts exactly one row carrying the
falsy-defaulted field values and returns the new rowid. -/
theorem claim_C5_no_validation (db : DB) (p : ProductInput)
    (h : skuConflict db p = false) :
    productsCreate db p =
      ({ db with products := db.products ++ [productRow db.nextProductId p]
                 nextProductId := db.nextProductId + 1 },
        Except.ok db.nextProductId) := by
  simp [productsCreate, h]

theorem claim_C5_no_validation_witness :
    skuConflict emptyDB validProductInput = false ∧
    productsCreate emptyDB validProductInput =
      ({ emptyDB with
          products := emptyDB.products ++ [productRow emptyDB.nextProductId validProductInput]
          nextProductId := emptyDB.nextProductId + 1 },
        Except.ok emptyDB.nextProductId) :=
  ⟨rfl, claim_C5_no_validation emptyDB validProductInput rfl⟩

/-- C9 counterexample: `products:update` on id 1 of an EMPTY store returns
normally — echoing `{ id, ...product }` — and leaves the store unchanged;
it does not fail with `NotFound` (the handler never inspects
`result.changes` and has no error path at all). -/
theorem claim_C9_counterexample :
    productsUpdate emptyDB 1 invalidProductInput = (emptyDB, 1) := rfl

/-- C9 amended: on an id with no Product row (and no dangling
`stock_movements`/`invoice_items` rows referencing it), `products:delete`
fails with `'Product not found'` and leaves the store unchanged, while
`products:update` does NOT fail: it reports success and leaves the store
unchanged. -/
theorem claim_C9_missing_id (db : DB) (id : Nat) (p : ProductInput)
    (hprod : ∀ q ∈ db.products, q.id ≠ id)
    (hmov : ∀ m ∈ db.stock_movements, m.product_id ≠ id)
    (hit : ∀ it ∈ db.invoice_items, it.product_id ≠ id) :
    productsDelete db id = (db, Except.error "Product not found") ∧
    productsUpdate db id p = (db, id) := by
  constructor
  · have hitems : (db.invoice_items.filter fun it => it.product_id = id) = [] :=
      List.filter_eq_nil_iff.mpr fun a ha => by simpa using hit a ha
    have hitems0 : ¬ 0 < (db.invoice_items.filter fun it => it.product_id = id).length := by
      simp [hitems]
    have hmovs : (db.stock_movements.filter fun m => ¬ m.product_id = id) =
        db.stock_movements :=
      List.filter_eq_self.mpr fun a ha => by simpa using hmov a ha
    have hprods : (db.products.filter fun q => ¬ q.id = id) = db.products :=
      List.filter_eq_self.mpr fun a ha => by simpa using hprod a ha
    unfold productsDelete
    simp only [hitems0, if_false, hmovs, hprods, if_pos rfl]
    simp
  · have hmap : (db.products.map fun q => if q.id = id then productRow id p else q) =
        db.products :=
      map_eq_self_of fun q hq => by simp [hprod q hq]
    unfold productsUpdate
    simp [hmap]

theorem claim_C9_missing_id_witness :
    (∀ q ∈ emptyDB.products, q.id ≠ 1) ∧
    (∀ m ∈ emptyDB.stock_movements, m.product_id ≠ 1) ∧
    (∀ it ∈ emptyDB.invoice_items, it.product_id ≠ 1) ∧
    (productsDelete emptyDB 1 = (emptyDB, Except.error "Product not found") ∧
      productsUpdate emptyDB 1 validProductInput = (emptyDB, 1)) :=
  ⟨by simp [emptyDB], by simp [emptyDB], by simp [emptyDB],
    claim_C9_missing_id emptyDB 1 validProductInput
      (by simp [emptyDB]) (by simp [emptyDB]) (by simp [emptyDB])⟩

/-- Store for the manual-adjustment scenario: one product, no movements. -/
def adjDB : DB := { emptyDB with products := [tireProduct], nextProductId := 2 }

/-- C7: the manual stock-adjustment path computes the new stock exactly as
the claim describes (`add` → current + amount, `subtract` →
max(0, current − amount), `set` → amount) but appends NO StockMovement row
at all: `handleSubmit` only calls `products.update` (its own comment says
the movement "would be handled in the backend, but for now we'll just
update stock").  Adding 5 to product 1 (stock 10) yields stock 15 and an
unchanged, empty `stock_movements` table, not the exactly-one movement row
the claim requires. -/
theorem claim_C7_adjust_appends_no_movement :
    (stockAdjustSubmit adjDB tireProduct .add 5).stock_movements = [] ∧
    ((stockAdjustSubmit adjDB tireProduct .add 5).products.map fun p => p.stock_quantity)
      = [15] ∧
    adjustNewStock 10 .add 5 = 15 ∧
    adjustNewStock 10 .subtract 12 = 0 ∧
    adjustNewStock 10 .set 4 = 4 := by
  refine ⟨?_, ?_, by norm_num [adjustNewStock], ?_, rfl⟩
  · simp [stockAdjustSubmit, productsUpdate, adjDB, emptyDB]
    norm_num
  · simp [stockAdjustSubmit, productsUpdate, adjDB, emptyDB, tireProduct, productToInput,
      productRow, adjustNewStock, jsNumOr, jsStrOrNull, jsNumOrNull, jsStrOr]
    norm_num
  · rw [adjustNewStock]
    rw [max_eq_left (by norm_num)]

/-- C8 counterexample: for a date with zero invoices the summary's
monetary fields are SQL NULL (the handler's `SUM(...)` has no `COALESCE`),
not 0: `total_revenue = none ≠ some 0`.  Count and top products are as the
claim says and no error occurs. -/
theorem claim_C8_counterexample :
    dailySales emptyDB "2026-10-11" = ⟨⟨0, none, none, none, none⟩, []⟩ ∧
    (none : Option ℚ) ≠ some 0 :=
  ⟨rfl, by simp⟩

/-- C8 amended: the daily report for a date with zero invoices returns
`total_invoices = 0`, every monetary sum as SQL NULL (not 0), and an empty
top-products list; the handler is a total function — it never fails. -/
theorem claim_C8_zero_invoices (db : DB) (date : String)
    (h : db.invoices.filter (fun i => i.created_at.take 10 = date) = []) :
    dailySales db date = ⟨⟨0, none, none, none, none⟩, []⟩ := by
  have hinv : ∀ i ∈ db.invoices, ¬ (i.created_at.take 10 = date) := by
    intro i hi
    simpa using List.filter_eq_nil_iff.mp h i hi
  have hrows : (db.invoice_items.filter fun ii =>
      match db.invoices.find? (fun i => i.id = ii.invoice_id) with
      | some i => i.created_at.take 10 = date
      | none => false) = [] := by
    apply List.filter_eq_nil_iff.mpr
    intro ii _
    rcases hf : db.invoices.find? (fun i => i.id = ii.invoice_id) with _ | i
    · simp [hf]
    · simp [hf, hinv i (List.mem_of_find?_eq_some hf)]
  unfold dailySales dailyTopProducts
  rw [h, hrows]
  simp [sqlSum, sortByRevenueDesc]

theorem claim_C8_zero_invoices_witness :
    (emptyDB.invoices.filter (fun i => i.created_at.take 10 = "2026-10-12") = []) ∧
    dailySales emptyDB "2026-10-12" = ⟨⟨0, none, none, none, none⟩, []⟩ :=
  ⟨rfl, claim_C8_zero_invoices emptyDB "2026-10-12" rfl⟩

end TireHouse
